import Mathlib

/-!
Verification of the Binance.us CSV input plugin
(`src/dali/plugin/input/csv/binance.py`).

The plugin reads a comma-separated transaction export, skips the header
line, classifies each data row by its transaction-type field and maps it
to one canonical transaction record (or skips it with a diagnostic).

The embedding below models a parsed CSV as `List (List String)` (the
external reader is out of scope for the spec) and the `load` method as a
function from the data rows to either a fatal error (a Python exception
escaping the loop, e.g. an `IndexError` from a positional access on a
short row) or the list of produced records together with the
classification diagnostics the logger received.  The per-row trace
logging of the raw row (`logger.debug("Transaction: %s", ...)`) is not
part of the model; the modelled diagnostics are the ones the
classification dispatch itself emits (the USD-deposit skip message and
the unsupported-type error message).
-/

/-- Python's `str.strip()`: remove leading and trailing whitespace.
Defined structurally on the character list so that concrete rows
evaluate inside proofs. -/
def String.strip (s : String) : String :=
  ⟨((s.data.dropWhile Char.isWhitespace).reverse.dropWhile Char.isWhitespace).reverse⟩

namespace Binance

/-- Modelled from the spec: the `Keyword` enumeration of the shared
configuration module (`dali/configuration.py`) is not part of the given
source tree.  The spec names the classification tags buy / income /
interest and an explicit "unknown" placeholder token for undeterminable
transfer counterparties, distinct from an empty value. -/
inductive Keyword where
  | BUY
  | SELL
  | INCOME
  | INTEREST
  | UNKNOWN
deriving DecidableEq, Repr

/-- Modelled from the spec: the string payload of each configuration
keyword, as used by the canonical record constructors. -/
@[simp] def Keyword.value : Keyword → String
  | .BUY => "buy"
  | .SELL => "sell"
  | .INCOME => "income"
  | .INTEREST => "interest"
  | .UNKNOWN => "unknown"

/-- Modelled from the spec: `AbstractInputPlugin.ISSUES_URL`, the pointer
to a support-issue location interpolated into the unsupported-type
diagnostic; the abstract base plugin is not part of the given source
tree. -/
def ISSUES_URL : String := "https://github.com/eprbell/dali-rp2/issues"

/-- `InTransaction` (an Inflow record) with the attributes this plugin
populates; optional fee slots default to `none` when a construction site
does not pass them. -/
structure InTransaction where
  plugin : String
  unique_id : String
  raw_data : String
  timestamp : String
  notes : String
  asset : String
  exchange : String
  holder : String
  transaction_type : String
  spot_price : String
  crypto_in : String
  crypto_fee : Option String := none
  fiat_fee : Option String := none
deriving DecidableEq, Repr

/-- `OutTransaction` (an Outflow record) with the attributes the (dead)
Sell branch of the plugin would populate. -/
structure OutTransaction where
  plugin : String
  unique_id : String
  raw_data : String
  timestamp : String
  notes : String
  exchange : String
  holder : String
  transaction_type : String
  assets : String
  crypto_out_no_fee : String
  spot_price : String
  crypto_fee : Option String := none
deriving DecidableEq, Repr

/-- `IntraTransaction` (a Transfer record) with the attributes this
plugin populates. -/
structure IntraTransaction where
  plugin : String
  unique_id : String
  raw_data : String
  timestamp : String
  notes : String
  asset : String
  crypto_sent : String
  crypto_received : String
  spot_price : String
  from_exchange : String
  from_holder : String
  to_exchange : String
  to_holder : String
deriving DecidableEq, Repr

/-- `AbstractTransaction`: the common supertype of the three record
variants returned by `load`. -/
inductive AbstractTransaction where
  | inT (t : InTransaction)
  | outT (t : OutTransaction)
  | intraT (t : IntraTransaction)
deriving DecidableEq, Repr

/-- Severity of a logger message emitted by the classification dispatch. -/
inductive DiagLevel where
  | debug
  | error
deriving DecidableEq, Repr

/-- A diagnostic emitted by the classification dispatch. -/
structure Diagnostic where
  level : DiagLevel
  message : String
deriving DecidableEq, Repr

-- Transaction-type literals (module constants of binance.py).
@[simp] def _CRYPTO_DEPOSIT : String := "Crypto Deposit"
@[simp] def _SELL : String := "Sell"
@[simp] def _BUY : String := "Buy"
@[simp] def _CRYPTO_WITHDRAWAL : String := "Crypto Withdrawal"
@[simp] def _USD_DEPOSIT : String := "USD Deposit"
@[simp] def _REFERRAL_COMMISSION : String := "Referral Commission"
@[simp] def _STAKING_REWARDS : String := "Staking Rewards"
@[simp] def _OTHERS : String := "Others"

-- Class constants of InputPlugin.
@[simp] def BINANCE : String := "Binance.us"
@[simp] def TIMESTAMP_INDEX : Nat := 1
@[simp] def TRANSACTION_CATEGORY_INDEX : Nat := 2
@[simp] def TRANSACTION_TYPE_INDEX : Nat := 3
@[simp] def TRANSACTION_ID_INDEX : Nat := 5
@[simp] def CURRENCY_INDEX : Nat := 6
@[simp] def BASE_ASSET_INDEX : Nat := 9
@[simp] def BASE_ASSET_AMOUNT_INDEX : Nat := 10
@[simp] def BASE_ASSET_AMOUNT_SPOT_PRICE_INDEX : Nat := 11
@[simp] def PRIMARY_ASSET_AMOUNT : Nat := 7
@[simp] def PRIMARY_ASSET_SPOT_PRICE : Nat := 8
@[simp] def DELIMITER : String := ","

/-- Positional access `line[i]`: returns the field, or the `IndexError`
a Python list access raises on an out-of-range index. -/
@[simp] def getField (line : List String) (i : Nat) : Except String String :=
  match line.get? i with
  | some s => .ok s
  | none => .error ("IndexError: list index " ++ toString i ++ " out of range")

/-- The body of the per-row loop of `InputPlugin.load`: classify one data
row and produce the record appended for it (if any) together with the
diagnostics the classification dispatch emits for it.  Field accesses
happen in source order, so the first out-of-range positional access
aborts the row (and, through `loadLoop`, the whole load) with an
`IndexError`.  Inside the commission/staking and crypto-deposit branches
the source redundantly re-reads the currency field; the value is
identical to the `currency` extracted above, so the re-read is not
repeated here. -/
def processRow (account_holder : String) (line : List String) :
    Except String (Option AbstractTransaction × List Diagnostic) := do
  let raw_data : String := String.intercalate DELIMITER line
  let transaction_id : String := (← getField line TRANSACTION_ID_INDEX).strip
  let transaction_type : String := (← getField line TRANSACTION_TYPE_INDEX).strip
  let category : String := (← getField line TRANSACTION_CATEGORY_INDEX).strip
  let currency : String := (← getField line CURRENCY_INDEX).strip
  -- there is no timezone information in the CSV, so UTC is assumed
  let timestamp_with_timezone : String := (← getField line TIMESTAMP_INDEX).strip ++ " -00:00"
  if transaction_type = _REFERRAL_COMMISSION ∨ transaction_type = _STAKING_REWARDS then
    let granular_transaction_type : Keyword :=
      if transaction_type = _REFERRAL_COMMISSION then Keyword.INCOME else Keyword.INTEREST
    let spot_price : String := (← getField line PRIMARY_ASSET_SPOT_PRICE).strip
    let crypto_in : String := (← getField line PRIMARY_ASSET_AMOUNT).strip
    pure (some (.inT {
      plugin := BINANCE
      unique_id := transaction_id
      raw_data := raw_data
      timestamp := timestamp_with_timezone
      notes := category ++ " - " ++ transaction_type
      asset := currency
      exchange := BINANCE
      holder := account_holder
      transaction_type := granular_transaction_type.value
      spot_price := spot_price
      crypto_in := crypto_in
      fiat_fee := some "0" }), [])
  else if transaction_type = _CRYPTO_DEPOSIT then
    let crypto_received : String := (← getField line PRIMARY_ASSET_AMOUNT).strip
    let spot_price : String := (← getField line PRIMARY_ASSET_SPOT_PRICE).strip
    pure (some (.intraT {
      plugin := BINANCE
      unique_id := transaction_id
      raw_data := raw_data
      timestamp := timestamp_with_timezone
      notes := category ++ " - " ++ transaction_type
      asset := currency
      crypto_sent := "0"
      crypto_received := crypto_received
      spot_price := spot_price
      -- funds most likely come from the user, but that cannot be
      -- verified from the row, so the unknown placeholder is used
      from_exchange := Keyword.UNKNOWN.value
      from_holder := Keyword.UNKNOWN.value
      to_exchange := BINANCE
      to_holder := account_holder }), [])
  else if transaction_type = _CRYPTO_WITHDRAWAL then
    let crypto_sent : String := (← getField line PRIMARY_ASSET_AMOUNT).strip
    let spot_price : String := (← getField line PRIMARY_ASSET_SPOT_PRICE).strip
    pure (some (.intraT {
      plugin := BINANCE
      unique_id := transaction_id
      raw_data := raw_data
      timestamp := timestamp_with_timezone
      notes := category ++ " - " ++ transaction_type
      crypto_received := "0"
      asset := currency
      crypto_sent := crypto_sent
      spot_price := spot_price
      from_exchange := BINANCE
      from_holder := account_holder
      to_exchange := Keyword.UNKNOWN.value
      to_holder := Keyword.UNKNOWN.value }), [])
  else if transaction_type = _BUY ∨ transaction_type = _SELL then
    let asset : String := (← getField line BASE_ASSET_INDEX).strip
    let crypto_in : String := (← getField line BASE_ASSET_AMOUNT_INDEX).strip
    let spot_price : String := (← getField line BASE_ASSET_AMOUNT_SPOT_PRICE_INDEX).strip
    let crypto_fee : String := (← getField line BASE_ASSET_AMOUNT_SPOT_PRICE_INDEX).strip
    pure (some (.inT {
      plugin := BINANCE
      unique_id := transaction_id
      raw_data := raw_data
      timestamp := timestamp_with_timezone
      notes := category ++ " - " ++ transaction_type
      exchange := BINANCE
      holder := account_holder
      transaction_type := Keyword.BUY.value
      asset := asset
      crypto_in := crypto_in
      spot_price := spot_price
      -- the source uses the USD value of the base asset as the fee
      crypto_fee := some crypto_fee }), [])
  else if transaction_type = _SELL then
    -- unreachable: the previous branch already matches "Sell";
    -- kept to mirror the source's dead Sell branch
    let assets : String := (← getField line BASE_ASSET_INDEX).strip
    let crypto_out_no_fee : String := (← getField line BASE_ASSET_AMOUNT_INDEX).strip
    let spot_price : String := (← getField line BASE_ASSET_AMOUNT_SPOT_PRICE_INDEX).strip
    let crypto_fee : String := (← getField line BASE_ASSET_AMOUNT_SPOT_PRICE_INDEX).strip
    pure (some (.outT {
      plugin := BINANCE
      unique_id := transaction_id
      raw_data := raw_data
      timestamp := timestamp_with_timezone
      notes := category ++ " - " ++ transaction_type
      exchange := BINANCE
      holder := account_holder
      transaction_type := Keyword.SELL.value
      assets := assets
      crypto_out_no_fee := crypto_out_no_fee
      spot_price := spot_price
      crypto_fee := some crypto_fee }), [])
  else if transaction_type = _USD_DEPOSIT then
    -- only purchases matter, so USD deposit entries are skipped
    pure (none, [⟨.debug, "Skipping USD deposit " ++ raw_data⟩])
  else
    pure (none, [⟨.error,
      "Unsupported transaction type (skipping): " ++ raw_data ++
        ". Please open an issue at " ++ ISSUES_URL⟩])

/-- The row loop of `InputPlugin.load`: `result` accumulates the records
appended so far (in order), `diags` the diagnostics emitted so far; the
first fatal row error propagates and aborts the loop. -/
def loadLoop (account_holder : String) :
    List (List String) → List AbstractTransaction → List Diagnostic →
      Except String (List AbstractTransaction × List Diagnostic)
  | [], result, diags => .ok (result, diags)
  | line :: rest, result, diags =>
    match processRow account_holder line with
    | .error e => .error e
    | .ok (some t, ds) => loadLoop account_holder rest (result ++ [t]) (diags ++ ds)
    | .ok (none, ds) => loadLoop account_holder rest result (diags ++ ds)

/-- `InputPlugin.load`, modelled on the already-parsed CSV rows.  The
first row is the header and is discarded (`next(lines)`; on an empty
file the resulting `StopIteration` escapes).  The `native_fiat`
constructor argument is threaded through because the plugin accepts and
stores it, but the body of `load` never consults it. -/
def load (account_holder : String) (_native_fiat : Option String)
    (rows : List (List String)) :
    Except String (List AbstractTransaction × List Diagnostic) :=
  match rows with
  | [] => .error "StopIteration"
  | _header :: dataRows => loadLoop account_holder dataRows [] []

/-- Timestamp attribute shared by all record variants (inherited from the
abstract transaction base class). -/
def AbstractTransaction.timestamp : AbstractTransaction → String
  | .inT t => t.timestamp
  | .outT t => t.timestamp
  | .intraT t => t.timestamp

/-- Unique-id attribute shared by all record variants. -/
def AbstractTransaction.unique_id : AbstractTransaction → String
  | .inT t => t.unique_id
  | .outT t => t.unique_id
  | .intraT t => t.unique_id

/-- Raw-audit attribute shared by all record variants. -/
def AbstractTransaction.raw_data : AbstractTransaction → String
  | .inT t => t.raw_data
  | .outT t => t.raw_data
  | .intraT t => t.raw_data

/-- Notes attribute shared by all record variants. -/
def AbstractTransaction.notes : AbstractTransaction → String
  | .inT t => t.notes
  | .outT t => t.notes
  | .intraT t => t.notes

/-- The transaction-type discriminator of a row, as the dispatch reads
it: field 3, whitespace-stripped (empty when the field is absent). -/
def rowType (row : List String) : String :=
  ((row.get? TRANSACTION_TYPE_INDEX).getD "").strip

/-- The number of positional fields the mapping rule matched by a given
discriminator reads: every rule reads the common fields (up to index 6),
the commission/staking and deposit/withdrawal rules additionally read
the primary-asset amount and spot price (up to index 8), and the
Buy/Sell rule the base-asset fields (up to index 11). -/
def requiredFieldCount (t : String) : Nat :=
  if t = _REFERRAL_COMMISSION ∨ t = _STAKING_REWARDS then 9
  else if t = _CRYPTO_DEPOSIT then 9
  else if t = _CRYPTO_WITHDRAWAL then 9
  else if t = _BUY ∨ t = _SELL then 12
  else 7

/-- The record a single data row contributes to the result (none for a
skipped or failing row); used to state the order-preservation property
of `load`. -/
def rowRecord (account_holder : String) (row : List String) :
    Option AbstractTransaction :=
  match processRow account_holder row with
  | .ok (r, _) => r
  | .error _ => none

-- Concrete rows used to instantiate the theorems.
def headerRow : List String :=
  ["User_Id", "Time", "Category", "Operation", "Order_Id", "Transaction_Id",
   "Primary_Asset", "Realized_Amount_For_Primary_Asset",
   "Realized_Amount_For_Primary_Asset_In_USD_Value", "Base_Asset",
   "Realized_Amount_For_Base_Asset", "Realized_Amount_For_Base_Asset_In_USD_Value"]

def stakingRow : List String :=
  ["U1", "2022-01-01 10:00:00", "Earn", "Staking Rewards", "", "TX1", "ADA",
   "5.0", "4.50", "", "", "", "", "", "", "", "", "", "", "", ""]

def sellRow : List String :=
  ["U1", "2022-01-03 09:00:00", "Trade", "Sell", "OID1", "TX3", "USD",
   "100.0", "100.0", "BTC", "0.5", "482.0"]

def depositRow : List String :=
  ["U1", "2022-01-04 09:00:00", "Deposit", "Crypto Deposit", "", "TX4",
   "BTC", "0.25", "9000.0"]

def buyRow : List String :=
  ["U1", "2022-01-06 09:00:00", "Trade", "Buy", "OID2", "TX6", "USD",
   "10.0", "10.0", "ETH", "2.0", "5000.0"]

/-- The Inflow record `processRow` produces for `buyRow`. -/
def buyRowRecord : InTransaction :=
  { plugin := "Binance.us"
    unique_id := "TX6"
    raw_data := "U1,2022-01-06 09:00:00,Trade,Buy,OID2,TX6,USD,10.0,10.0,ETH,2.0,5000.0"
    timestamp := "2022-01-06 09:00:00 -00:00"
    notes := "Trade - Buy"
    asset := "ETH"
    exchange := "Binance.us"
    holder := "holder"
    transaction_type := "buy"
    spot_price := "5000.0"
    crypto_in := "2.0"
    crypto_fee := some "5000.0"
    fiat_fee := none }

def usdDepositRow : List String :=
  ["U1", "2022-01-02 08:00:00", "Distribution", "USD Deposit", "", "TX2",
   "USD", "100.00", "100.00"]

def eurDepositRow : List String :=
  ["U1", "2022-01-02 08:00:00", "Distribution", "EUR Deposit", "", "TX2",
   "EUR", "100.00", "100.00"]

def othersRow : List String :=
  ["U1", "2022-01-07 08:00:00", "Distribution", "Others", "", "TX7",
   "BNB", "1.0", "1.0"]

/-- A staking row whose timestamp field carries a trailing space. -/
def paddedTimestampRow : List String :=
  ["U1", "2022-01-01 10:00:00 ", "Earn", "Staking Rewards", "", "TX8",
   "ADA", "5.0", "4.50"]

/-- The Inflow record `processRow` produces for `paddedTimestampRow`. -/
def paddedTimestampRecord : InTransaction :=
  { plugin := "Binance.us"
    unique_id := "TX8"
    raw_data := "U1,2022-01-01 10:00:00 ,Earn,Staking Rewards,,TX8,ADA,5.0,4.50"
    timestamp := "2022-01-01 10:00:00 -00:00"
    notes := "Earn - Staking Rewards"
    asset := "ADA"
    exchange := "Binance.us"
    holder := "holder"
    transaction_type := "interest"
    spot_price := "4.50"
    crypto_in := "5.0"
    fiat_fee := some "0" }

/-- A Buy row with only 10 fields: the Buy/Sell rule needs the base-asset
columns up to index 11. -/
def shortBuyRow : List String :=
  ["U1", "2022-01-08 09:00:00", "Trade", "Buy", "", "TX9", "USD", "1.0",
   "1.0", "ETH"]

/-- A 6-field row whose type field would classify it as a USD-deposit
skip, but which is too short for the common field extraction. -/
def shortUsdRow : List String :=
  ["U1", "2022-01-09 08:00:00", "Distribution", "USD Deposit", "", "TX10"]

/-- C2: a row whose transaction type is "Staking Rewards" or "Referral
Commission" yields exactly one Inflow record whose asset is the stripped
primary-asset field (index 6), whose fiat fee is the string "0", whose
amount and spot price are the stripped primary-asset amount and
spot-price fields, and whose classification is interest for staking and
income for referral commission. -/
theorem staking_and_referral_rows_map_to_inflow
    (ah : String) (row : List String) (f1 f2 f3 f5 f6 f7 f8 : String)
    (h1 : row[1]? = some f1) (h2 : row[2]? = some f2)
    (h3 : row[3]? = some f3) (h5 : row[5]? = some f5)
    (h6 : row[6]? = some f6) (h7 : row[7]? = some f7)
    (h8 : row[8]? = some f8)
    (htype : f3.strip = _STAKING_REWARDS ∨ f3.strip = _REFERRAL_COMMISSION) :
    processRow ah row = .ok (some (.inT {
      plugin := BINANCE
      unique_id := f5.strip
      raw_data := String.intercalate DELIMITER row
      timestamp := f1.strip ++ " -00:00"
      notes := f2.strip ++ " - " ++ f3.strip
      asset := f6.strip
      exchange := BINANCE
      holder := ah
      transaction_type :=
        (if f3.strip = _REFERRAL_COMMISSION then Keyword.INCOME else Keyword.INTEREST).value
      spot_price := f8.strip
      crypto_in := f7.strip
      fiat_fee := some "0" }), []) := by
  rcases htype with ht | ht <;>
    simp [processRow, getField, h1, h2, h3, h5, h6, h7, h8, ht,
      _STAKING_REWARDS, _REFERRAL_COMMISSION, TIMESTAMP_INDEX,
      TRANSACTION_CATEGORY_INDEX, TRANSACTION_TYPE_INDEX, TRANSACTION_ID_INDEX,
      CURRENCY_INDEX, PRIMARY_ASSET_AMOUNT, PRIMARY_ASSET_SPOT_PRICE,
      Bind.bind, Except.bind, Pure.pure, Except.pure]

/-- Shape of every successful `processRow` result: the five common fields
were present, every produced record carries the common-attribute
derivation (UTC-suffixed stripped timestamp, stripped transaction id,
verbatim rejoined raw data, category/type note), and no produced record
is ever an `OutTransaction` (the dedicated Sell branch is dead code). -/
theorem processRow_ok_common (ah : String) (row : List String)
    (res : Option AbstractTransaction × List Diagnostic)
    (hok : processRow ah row = .ok res) :
    ∃ f1 f2 f3 f5 f6,
      row[1]? = some f1 ∧ row[2]? = some f2 ∧ row[3]? = some f3 ∧
      row[5]? = some f5 ∧ row[6]? = some f6 ∧
      (∀ t, res.1 = some t →
        t.timestamp = f1.strip ++ " -00:00" ∧
        t.unique_id = f5.strip ∧
        t.raw_data = String.intercalate DELIMITER row ∧
        t.notes = f2.strip ++ " - " ++ f3.strip) ∧
      (∀ o, res.1 ≠ some (.outT o)) := by
  rcases res with ⟨r, ds⟩
  rcases hq5 : row[5]? with _ | q5
  · simp [processRow, hq5, Bind.bind, Except.bind] at hok
  rcases hq3 : row[3]? with _ | q3
  · simp [processRow, hq5, hq3, Bind.bind, Except.bind] at hok
  rcases hq2 : row[2]? with _ | q2
  · simp [processRow, hq5, hq3, hq2, Bind.bind, Except.bind] at hok
  rcases hq6 : row[6]? with _ | q6
  · simp [processRow, hq5, hq3, hq2, hq6, Bind.bind, Except.bind] at hok
  rcases hq1 : row[1]? with _ | q1
  · simp [processRow, hq5, hq3, hq2, hq6, hq1, Bind.bind, Except.bind] at hok
  refine ⟨q1, q2, q3, q5, q6, rfl, rfl, rfl, rfl, rfl, ?_⟩
  by_cases hc1 : q3.strip = "Referral Commission" ∨ q3.strip = "Staking Rewards"
  · rcases hq8 : row[8]? with _ | q8
    · simp [processRow, hq5, hq3, hq2, hq6, hq1, hq8, hc1,
        Bind.bind, Except.bind] at hok
    rcases hq7 : row[7]? with _ | q7
    · simp [processRow, hq5, hq3, hq2, hq6, hq1, hq8, hq7, hc1,
        Bind.bind, Except.bind] at hok
    simp [processRow, hq5, hq3, hq2, hq6, hq1, hq8, hq7, hc1,
      Bind.bind, Except.bind, Pure.pure, Except.pure] at hok
    obtain ⟨hr, hds⟩ := hok
    subst hr
    constructor
    · intro t ht
      simp only [Option.some.injEq] at ht
      subst ht
      simp [AbstractTransaction.timestamp, AbstractTransaction.unique_id,
        AbstractTransaction.raw_data, AbstractTransaction.notes]
    · intro o
      simp
  · by_cases hc2 : q3.strip = "Crypto Deposit"
    · rcases hq7 : row[7]? with _ | q7
      · simp [processRow, hq5, hq3, hq2, hq6, hq1, hq7, hc1, hc2,
          Bind.bind, Except.bind] at hok
      rcases hq8 : row[8]? with _ | q8
      · simp [processRow, hq5, hq3, hq2, hq6, hq1, hq7, hq8, hc1, hc2,
          Bind.bind, Except.bind] at hok
      simp [processRow, hq5, hq3, hq2, hq6, hq1, hq7, hq8, hc1, hc2,
        Bind.bind, Except.bind, Pure.pure, Except.pure] at hok
      obtain ⟨hr, hds⟩ := hok
      subst hr
      constructor
      · intro t ht
        simp only [Option.some.injEq] at ht
        subst ht
        simp [AbstractTransaction.timestamp, AbstractTransaction.unique_id,
          AbstractTransaction.raw_data, AbstractTransaction.notes, hc2]
      · intro o
        simp
    · by_cases hc3 : q3.strip = "Crypto Withdrawal"
      · rcases hq7 : row[7]? with _ | q7
        · simp [processRow, hq5, hq3, hq2, hq6, hq1, hq7, hc1, hc2, hc3,
            Bind.bind, Except.bind] at hok
        rcases hq8 : row[8]? with _ | q8
        · simp [processRow, hq5, hq3, hq2, hq6, hq1, hq7, hq8, hc1, hc2, hc3,
            Bind.bind, Except.bind] at hok
        simp [processRow, hq5, hq3, hq2, hq6, hq1, hq7, hq8, hc1, hc2, hc3,
          Bind.bind, Except.bind, Pure.pure, Except.pure] at hok
        obtain ⟨hr, hds⟩ := hok
        subst hr
        constructor
        · intro t ht
          simp only [Option.some.injEq] at ht
          subst ht
          simp [AbstractTransaction.timestamp, AbstractTransaction.unique_id,
            AbstractTransaction.raw_data, AbstractTransaction.notes, hc3]
        · intro o
          simp
      · by_cases hc4 : q3.strip = "Buy" ∨ q3.strip = "Sell"
        · rcases hq9 : row[9]? with _ | q9
          · simp [processRow, hq5, hq3, hq2, hq6, hq1, hq9, hc1, hc2, hc3, hc4,
              Bind.bind, Except.bind] at hok
          rcases hq10 : row[10]? with _ | q10
          · simp [processRow, hq5, hq3, hq2, hq6, hq1, hq9, hq10, hc1, hc2, hc3,
              hc4, Bind.bind, Except.bind] at hok
          rcases hq11 : row[11]? with _ | q11
          · simp [processRow, hq5, hq3, hq2, hq6, hq1, hq9, hq10, hq11, hc1,
              hc2, hc3, hc4, Bind.bind, Except.bind] at hok
          simp [processRow, hq5, hq3, hq2, hq6, hq1, hq9, hq10, hq11, hc1, hc2,
            hc3, hc4, Bind.bind, Except.bind, Pure.pure, Except.pure,
            Functor.map, Except.map] at hok
          obtain ⟨hr, hds⟩ := hok
          subst hr
          constructor
          · intro t ht
            simp only [Option.some.injEq] at ht
            subst ht
            simp [AbstractTransaction.timestamp, AbstractTransaction.unique_id,
              AbstractTransaction.raw_data, AbstractTransaction.notes]
          · intro o
            simp
        · have hns : ¬ q3.strip = "Sell" := fun h => hc4 (Or.inr h)
          have hnb : ¬ q3.strip = "Buy" := fun h => hc4 (Or.inl h)
          by_cases hc5 : q3.strip = "USD Deposit"
          · simp [processRow, hq5, hq3, hq2, hq6, hq1, hc1, hc2, hc3, hnb, hns,
              hc5, Bind.bind, Except.bind, Pure.pure, Except.pure] at hok
            obtain ⟨hr, hds⟩ := hok
            subst hr
            constructor
            · intro t ht
              simp at ht
            · intro o
              simp
          · simp [processRow, hq5, hq3, hq2, hq6, hq1, hc1, hc2, hc3, hnb, hns,
              hc5, Bind.bind, Except.bind, Pure.pure, Except.pure] at hok
            obtain ⟨hr, hds⟩ := hok
            subst hr
            constructor
            · intro t ht
              simp at ht
            · intro o
              simp

/-- C1: a row whose transaction type is "Sell" is handled by the combined
Buy/Sell rule: it yields one Inflow record with transaction type buy,
asset from the base-asset field, amount from the base-asset-amount field
and spot price from the base-asset USD-value field; and no Sell row ever
yields an Outflow record (the dedicated Sell branch is unreachable). -/
theorem sell_rows_map_to_buy_inflow
    (ah : String) (row : List String) (f1 f2 f3 f5 f6 f9 f10 f11 : String)
    (h1 : row[1]? = some f1) (h2 : row[2]? = some f2)
    (h3 : row[3]? = some f3) (h5 : row[5]? = some f5)
    (h6 : row[6]? = some f6) (h9 : row[9]? = some f9)
    (h10 : row[10]? = some f10) (h11 : row[11]? = some f11)
    (htype : f3.strip = _SELL) :
    processRow ah row = .ok (some (.inT {
      plugin := BINANCE
      unique_id := f5.strip
      raw_data := String.intercalate DELIMITER row
      timestamp := f1.strip ++ " -00:00"
      notes := f2.strip ++ " - " ++ f3.strip
      exchange := BINANCE
      holder := ah
      transaction_type := Keyword.BUY.value
      asset := f9.strip
      crypto_in := f10.strip
      spot_price := f11.strip
      crypto_fee := some f11.strip }), []) ∧
    (∀ (row2 : List String) (g3 : String)
        (res : Option AbstractTransaction × List Diagnostic) (o : OutTransaction),
      row2[3]? = some g3 → g3.strip = _SELL →
      processRow ah row2 = .ok res → res.1 ≠ some (.outT o)) := by
  constructor
  · simp [processRow, getField, h1, h2, h3, h5, h6, h9, h10, h11, htype,
      _SELL, _BUY, _REFERRAL_COMMISSION, _STAKING_REWARDS, _CRYPTO_DEPOSIT,
      _CRYPTO_WITHDRAWAL, TIMESTAMP_INDEX, TRANSACTION_CATEGORY_INDEX,
      TRANSACTION_TYPE_INDEX, TRANSACTION_ID_INDEX, CURRENCY_INDEX,
      BASE_ASSET_INDEX, BASE_ASSET_AMOUNT_INDEX,
      BASE_ASSET_AMOUNT_SPOT_PRICE_INDEX,
      Bind.bind, Except.bind, Pure.pure, Except.pure]
  · intro row2 g3 res o hg3 hgt hok
    obtain ⟨_, _, _, _, _, _, _, _, _, _, _, hnoOut⟩ :=
      processRow_ok_common ah row2 res hok
    exact hnoOut o

/-- Witness for C1, at a concrete Sell row. -/
theorem sell_rows_map_to_buy_inflow_witness :
    processRow "holder" sellRow = .ok (some (.inT {
      plugin := "Binance.us"
      unique_id := "TX3"
      raw_data := "U1,2022-01-03 09:00:00,Trade,Sell,OID1,TX3,USD,100.0,100.0,BTC,0.5,482.0"
      timestamp := "2022-01-03 09:00:00 -00:00"
      notes := "Trade - Sell"
      exchange := "Binance.us"
      holder := "holder"
      transaction_type := "buy"
      asset := "BTC"
      crypto_in := "0.5"
      spot_price := "482.0"
      crypto_fee := some "482.0" }), []) ∧
    (∀ (row2 : List String) (g3 : String)
        (res : Option AbstractTransaction × List Diagnostic) (o : OutTransaction),
      row2[3]? = some g3 → g3.strip = _SELL →
      processRow "holder" row2 = .ok res → res.1 ≠ some (.outT o)) :=
  sell_rows_map_to_buy_inflow "holder" sellRow
    "2022-01-03 09:00:00" "Trade" "Sell" "TX3" "USD" "BTC" "0.5" "482.0"
    rfl rfl rfl rfl rfl rfl rfl rfl rfl

/-- Witness for C2, at the staking example row of the spec. -/
theorem staking_and_referral_rows_map_to_inflow_witness :
    processRow "holder" stakingRow = .ok (some (.inT {
      plugin := "Binance.us"
      unique_id := "TX1"
      raw_data := "U1,2022-01-01 10:00:00,Earn,Staking Rewards,,TX1,ADA,5.0,4.50,,,,,,,,,,,,"
      timestamp := "2022-01-01 10:00:00 -00:00"
      notes := "Earn - Staking Rewards"
      asset := "ADA"
      exchange := "Binance.us"
      holder := "holder"
      transaction_type := "interest"
      spot_price := "4.50"
      crypto_in := "5.0"
      fiat_fee := some "0" }), []) :=
  staking_and_referral_rows_map_to_inflow "holder" stakingRow
    "2022-01-01 10:00:00" "Earn" "Staking Rewards" "TX1" "ADA" "5.0" "4.50"
    rfl rfl rfl rfl rfl rfl rfl (Or.inl rfl)

/-- C3: a "Crypto Deposit" row yields exactly one Transfer whose
amount-sent is "0", amount-received is the primary-asset-amount field,
receiving side is this exchange and the account holder and sending side
is the unknown placeholder; a "Crypto Withdrawal" row is symmetric; and
the unknown placeholder is a non-empty token. -/
theorem crypto_deposit_and_withdrawal_rows_map_to_transfer
    (ah : String) (row : List String) (f1 f2 f3 f5 f6 f7 f8 : String)
    (h1 : row[1]? = some f1) (h2 : row[2]? = some f2)
    (h3 : row[3]? = some f3) (h5 : row[5]? = some f5)
    (h6 : row[6]? = some f6) (h7 : row[7]? = some f7)
    (h8 : row[8]? = some f8)
    (htype : f3.strip = _CRYPTO_DEPOSIT ∨ f3.strip = _CRYPTO_WITHDRAWAL) :
    processRow ah row = .ok (some (.intraT (
      if f3.strip = _CRYPTO_DEPOSIT then
        { plugin := BINANCE
          unique_id := f5.strip
          raw_data := String.intercalate DELIMITER row
          timestamp := f1.strip ++ " -00:00"
          notes := f2.strip ++ " - " ++ f3.strip
          asset := f6.strip
          crypto_sent := "0"
          crypto_received := f7.strip
          spot_price := f8.strip
          from_exchange := Keyword.UNKNOWN.value
          from_holder := Keyword.UNKNOWN.value
          to_exchange := BINANCE
          to_holder := ah }
      else
        { plugin := BINANCE
          unique_id := f5.strip
          raw_data := String.intercalate DELIMITER row
          timestamp := f1.strip ++ " -00:00"
          notes := f2.strip ++ " - " ++ f3.strip
          asset := f6.strip
          crypto_sent := f7.strip
          crypto_received := "0"
          spot_price := f8.strip
          from_exchange := BINANCE
          from_holder := ah
          to_exchange := Keyword.UNKNOWN.value
          to_holder := Keyword.UNKNOWN.value })), []) ∧
    Keyword.UNKNOWN.value ≠ "" := by
  refine ⟨?_, by simp⟩
  rcases htype with ht | ht <;>
    simp [processRow, h1, h2, h3, h5, h6, h7, h8, ht,
      Bind.bind, Except.bind, Pure.pure, Except.pure]

/-- Witness for C3, at a concrete Crypto Deposit row. -/
theorem crypto_deposit_and_withdrawal_rows_map_to_transfer_witness :
    processRow "holder" depositRow = .ok (some (.intraT {
      plugin := "Binance.us"
      unique_id := "TX4"
      raw_data := "U1,2022-01-04 09:00:00,Deposit,Crypto Deposit,,TX4,BTC,0.25,9000.0"
      timestamp := "2022-01-04 09:00:00 -00:00"
      notes := "Deposit - Crypto Deposit"
      asset := "BTC"
      crypto_sent := "0"
      crypto_received := "0.25"
      spot_price := "9000.0"
      from_exchange := "unknown"
      from_holder := "unknown"
      to_exchange := "Binance.us"
      to_holder := "holder" }), []) ∧
    Keyword.UNKNOWN.value ≠ "" :=
  crypto_deposit_and_withdrawal_rows_map_to_transfer "holder" depositRow
    "2022-01-04 09:00:00" "Deposit" "Crypto Deposit" "TX4" "BTC" "0.25" "9000.0"
    rfl rfl rfl rfl rfl rfl rfl (Or.inl rfl)

/-- C4 counterexample: for a concrete Buy row the USD value of the base
asset is recorded in the crypto-denominated fee slot while the
fiat-denominated fee slot stays unset, so the fee is not recorded as a
fiat-denominated fee. -/
theorem buy_fee_not_recorded_as_fiat_counterexample :
    processRow "holder" buyRow = .ok (some (.inT buyRowRecord), []) ∧
    buyRowRecord.fiat_fee = none ∧
    buyRowRecord.fiat_fee ≠ some "5000.0" ∧
    buyRowRecord.crypto_fee = some "5000.0" :=
  ⟨rfl, rfl, by simp [buyRowRecord], rfl⟩

/-- C4 amended: for every row handled by the Buy/Sell rule the fee
amount recorded is the base-asset USD-value column (the fiat-equivalent
spot value of the trade, not the literal fee-asset line items), but it
is stored in the crypto-fee slot of the Inflow record; the fiat-fee
slot is left unset. -/
theorem buy_sell_fee_is_spot_value_in_crypto_fee_slot
    (ah : String) (row : List String) (f1 f2 f3 f5 f6 f9 f10 f11 : String)
    (h1 : row[1]? = some f1) (h2 : row[2]? = some f2)
    (h3 : row[3]? = some f3) (h5 : row[5]? = some f5)
    (h6 : row[6]? = some f6) (h9 : row[9]? = some f9)
    (h10 : row[10]? = some f10) (h11 : row[11]? = some f11)
    (htype : f3.strip = _BUY ∨ f3.strip = _SELL) :
    processRow ah row = .ok (some (.inT {
      plugin := BINANCE
      unique_id := f5.strip
      raw_data := String.intercalate DELIMITER row
      timestamp := f1.strip ++ " -00:00"
      notes := f2.strip ++ " - " ++ f3.strip
      exchange := BINANCE
      holder := ah
      transaction_type := Keyword.BUY.value
      asset := f9.strip
      crypto_in := f10.strip
      spot_price := f11.strip
      crypto_fee := some f11.strip
      fiat_fee := none }), []) := by
  rcases htype with ht | ht <;>
    simp [processRow, h1, h2, h3, h5, h6, h9, h10, h11, ht,
      Bind.bind, Except.bind, Pure.pure, Except.pure]

/-- Witness for the amended C4, at a concrete Buy row. -/
theorem buy_sell_fee_is_spot_value_in_crypto_fee_slot_witness :
    processRow "holder" buyRow = .ok (some (.inT {
      plugin := "Binance.us"
      unique_id := "TX6"
      raw_data := "U1,2022-01-06 09:00:00,Trade,Buy,OID2,TX6,USD,10.0,10.0,ETH,2.0,5000.0"
      timestamp := "2022-01-06 09:00:00 -00:00"
      notes := "Trade - Buy"
      exchange := "Binance.us"
      holder := "holder"
      transaction_type := "buy"
      asset := "ETH"
      crypto_in := "2.0"
      spot_price := "5000.0"
      crypto_fee := some "5000.0"
      fiat_fee := none }), []) :=
  buy_sell_fee_is_spot_value_in_crypto_fee_slot "holder" buyRow
    "2022-01-06 09:00:00" "Trade" "Buy" "TX6" "USD" "ETH" "2.0" "5000.0"
    rfl rfl rfl rfl rfl rfl rfl rfl (Or.inl rfl)

/-- C5 counterexample: with a reporting-currency override of "EUR"
supplied at construction, a row of the configured reporting-fiat deposit
type "EUR Deposit" is not skipped with a debug diagnostic: it falls to
the unsupported-type path and receives an error-level diagnostic, because
`load` only compares against the literal "USD Deposit". -/
theorem native_fiat_deposit_not_skipped_counterexample :
    load "holder" (some "EUR") [headerRow, eurDepositRow] = .ok ([], [⟨.error,
      "Unsupported transaction type (skipping): " ++
        "U1,2022-01-02 08:00:00,Distribution,EUR Deposit,,TX2,EUR,100.00,100.00" ++
        ". Please open an issue at " ++ ISSUES_URL⟩]) ∧
    DiagLevel.error ≠ DiagLevel.debug :=
  ⟨rfl, by simp⟩

/-- C5 amended: only a row whose transaction type is the literal
"USD Deposit" is skipped with no record and exactly one debug-level
diagnostic; the reporting-currency override passed at construction is
never consulted by `load`, so it does not change which deposit type is
skipped. -/
theorem usd_deposit_rows_skipped_with_debug
    (ah : String) (nf nf2 : Option String) (row : List String)
    (f1 f2 f3 f5 f6 : String)
    (h1 : row[1]? = some f1) (h2 : row[2]? = some f2)
    (h3 : row[3]? = some f3) (h5 : row[5]? = some f5)
    (h6 : row[6]? = some f6)
    (htype : f3.strip = _USD_DEPOSIT) :
    processRow ah row = .ok (none, [⟨.debug,
      "Skipping USD deposit " ++ String.intercalate DELIMITER row⟩]) ∧
    (∀ rows, load ah nf rows = load ah nf2 rows) := by
  refine ⟨?_, fun rows => rfl⟩
  simp [processRow, h1, h2, h3, h5, h6, htype,
    Bind.bind, Except.bind, Pure.pure, Except.pure]

/-- Witness for the amended C5, at the USD-deposit example row of the
spec, with two different reporting-currency overrides. -/
theorem usd_deposit_rows_skipped_with_debug_witness :
    processRow "holder" usdDepositRow = .ok (none, [⟨.debug,
      "Skipping USD deposit " ++
        "U1,2022-01-02 08:00:00,Distribution,USD Deposit,,TX2,USD,100.00,100.00"⟩]) ∧
    (∀ rows, load "holder" none rows = load "holder" (some "EUR") rows) :=
  usd_deposit_rows_skipped_with_debug "holder" none (some "EUR") usdDepositRow
    "2022-01-02 08:00:00" "Distribution" "USD Deposit" "TX2" "USD"
    rfl rfl rfl rfl rfl rfl

/-- C6: a row whose transaction type matches none of the known literals
and is not the USD-deposit case yields no record and exactly one
error-level diagnostic containing the raw row text and the support-issue
location, and the loop keeps processing the remaining rows. -/
theorem unrecognized_rows_skipped_with_error
    (ah : String) (row : List String) (f1 f2 f3 f5 f6 : String)
    (h1 : row[1]? = some f1) (h2 : row[2]? = some f2)
    (h3 : row[3]? = some f3) (h5 : row[5]? = some f5)
    (h6 : row[6]? = some f6)
    (hn1 : f3.strip ≠ _REFERRAL_COMMISSION) (hn2 : f3.strip ≠ _STAKING_REWARDS)
    (hn3 : f3.strip ≠ _CRYPTO_DEPOSIT) (hn4 : f3.strip ≠ _CRYPTO_WITHDRAWAL)
    (hn5 : f3.strip ≠ _BUY) (hn6 : f3.strip ≠ _SELL)
    (hn7 : f3.strip ≠ _USD_DEPOSIT) :
    processRow ah row = .ok (none, [⟨.error,
      "Unsupported transaction type (skipping): " ++
        String.intercalate DELIMITER row ++
        ". Please open an issue at " ++ ISSUES_URL⟩]) ∧
    (∀ rest result diags,
      loadLoop ah (row :: rest) result diags =
        loadLoop ah rest result (diags ++ [⟨.error,
          "Unsupported transaction type (skipping): " ++
            String.intercalate DELIMITER row ++
            ". Please open an issue at " ++ ISSUES_URL⟩])) := by
  have hmain : processRow ah row = .ok (none, [⟨.error,
      "Unsupported transaction type (skipping): " ++
        String.intercalate DELIMITER row ++
        ". Please open an issue at " ++ ISSUES_URL⟩]) := by
    simp only [_REFERRAL_COMMISSION, _STAKING_REWARDS, _CRYPTO_DEPOSIT,
      _CRYPTO_WITHDRAWAL, _BUY, _SELL,
      _USD_DEPOSIT] at hn1 hn2 hn3 hn4 hn5 hn6 hn7
    simp [processRow, h1, h2, h3, h5, h6, hn1, hn2, hn3, hn4, hn5, hn6, hn7,
      Bind.bind, Except.bind, Pure.pure, Except.pure]
  refine ⟨hmain, fun rest result diags => ?_⟩
  rw [loadLoop, hmain]

/-- Witness for C6, at a concrete "Others" row followed by a Buy row
that is still processed. -/
theorem unrecognized_rows_skipped_with_error_witness :
    processRow "holder" othersRow = .ok (none, [⟨.error,
      "Unsupported transaction type (skipping): " ++
        "U1,2022-01-07 08:00:00,Distribution,Others,,TX7,BNB,1.0,1.0" ++
        ". Please open an issue at " ++ ISSUES_URL⟩]) ∧
    (∀ rest result diags,
      loadLoop "holder" (othersRow :: rest) result diags =
        loadLoop "holder" rest result (diags ++ [⟨.error,
          "Unsupported transaction type (skipping): " ++
            "U1,2022-01-07 08:00:00,Distribution,Others,,TX7,BNB,1.0,1.0" ++
            ". Please open an issue at " ++ ISSUES_URL⟩])) :=
  unrecognized_rows_skipped_with_error "holder" othersRow
    "2022-01-07 08:00:00" "Distribution" "Others" "TX7" "BNB"
    rfl rfl rfl rfl rfl
    (by decide) (by decide) (by decide) (by decide) (by decide) (by decide)
    (by decide)

/-- C7 counterexample: for a row whose timestamp field carries a
trailing space, the emitted record's timestamp is not the raw timestamp
field with " -00:00" appended — the field is whitespace-stripped
first. -/
theorem timestamp_not_raw_field_counterexample :
    paddedTimestampRow[1]? = some "2022-01-01 10:00:00 " ∧
    processRow "holder" paddedTimestampRow =
      .ok (some (.inT paddedTimestampRecord), []) ∧
    paddedTimestampRecord.timestamp ≠ "2022-01-01 10:00:00 " ++ " -00:00" :=
  ⟨rfl, rfl, by simp [paddedTimestampRecord]⟩

/-- C7 amended: every record emitted by the row loop, of every variant,
carries a timestamp equal to the whitespace-stripped source timestamp
field with " -00:00" appended, a raw-audit string equal to the row
fields rejoined with the delimiter, a unique id equal to the stripped
transaction-id field, and a note composed of the stripped category and
transaction-type fields. -/
theorem every_record_has_common_attributes
    (ah : String) (row : List String) (f1 f2 f3 f5 : String)
    (t : AbstractTransaction) (ds : List Diagnostic)
    (h1 : row[1]? = some f1) (h2 : row[2]? = some f2)
    (h3 : row[3]? = some f3) (h5 : row[5]? = some f5)
    (hok : processRow ah row = .ok (some t, ds)) :
    t.timestamp = f1.strip ++ " -00:00" ∧
    t.unique_id = f5.strip ∧
    t.raw_data = String.intercalate DELIMITER row ∧
    t.notes = f2.strip ++ " - " ++ f3.strip := by
  obtain ⟨q1, q2, q3, q5, q6, hq1, hq2, hq3, hq5, hq6, hcommon, -⟩ :=
    processRow_ok_common ah row (some t, ds) hok
  rw [h1] at hq1
  rw [h2] at hq2
  rw [h3] at hq3
  rw [h5] at hq5
  obtain rfl := Option.some.inj hq1
  obtain rfl := Option.some.inj hq2
  obtain rfl := Option.some.inj hq3
  obtain rfl := Option.some.inj hq5
  exact hcommon t rfl

/-- Witness for the amended C7, at a concrete Crypto Deposit row. -/
theorem every_record_has_common_attributes_witness :
    (AbstractTransaction.intraT {
      plugin := "Binance.us"
      unique_id := "TX4"
      raw_data := "U1,2022-01-04 09:00:00,Deposit,Crypto Deposit,,TX4,BTC,0.25,9000.0"
      timestamp := "2022-01-04 09:00:00 -00:00"
      notes := "Deposit - Crypto Deposit"
      asset := "BTC"
      crypto_sent := "0"
      crypto_received := "0.25"
      spot_price := "9000.0"
      from_exchange := "unknown"
      from_holder := "unknown"
      to_exchange := "Binance.us"
      to_holder := "holder" }).timestamp = "2022-01-04 09:00:00" ++ " -00:00" ∧
    (AbstractTransaction.intraT {
      plugin := "Binance.us"
      unique_id := "TX4"
      raw_data := "U1,2022-01-04 09:00:00,Deposit,Crypto Deposit,,TX4,BTC,0.25,9000.0"
      timestamp := "2022-01-04 09:00:00 -00:00"
      notes := "Deposit - Crypto Deposit"
      asset := "BTC"
      crypto_sent := "0"
      crypto_received := "0.25"
      spot_price := "9000.0"
      from_exchange := "unknown"
      from_holder := "unknown"
      to_exchange := "Binance.us"
      to_holder := "holder" }).unique_id = "TX4" ∧
    (AbstractTransaction.intraT {
      plugin := "Binance.us"
      unique_id := "TX4"
      raw_data := "U1,2022-01-04 09:00:00,Deposit,Crypto Deposit,,TX4,BTC,0.25,9000.0"
      timestamp := "2022-01-04 09:00:00 -00:00"
      notes := "Deposit - Crypto Deposit"
      asset := "BTC"
      crypto_sent := "0"
      crypto_received := "0.25"
      spot_price := "9000.0"
      from_exchange := "unknown"
      from_holder := "unknown"
      to_exchange := "Binance.us"
      to_holder := "holder" }).raw_data = String.intercalate DELIMITER depositRow ∧
    (AbstractTransaction.intraT {
      plugin := "Binance.us"
      unique_id := "TX4"
      raw_data := "U1,2022-01-04 09:00:00,Deposit,Crypto Deposit,,TX4,BTC,0.25,9000.0"
      timestamp := "2022-01-04 09:00:00 -00:00"
      notes := "Deposit - Crypto Deposit"
      asset := "BTC"
      crypto_sent := "0"
      crypto_received := "0.25"
      spot_price := "9000.0"
      from_exchange := "unknown"
      from_holder := "unknown"
      to_exchange := "Binance.us"
      to_holder := "holder" }).notes = "Deposit" ++ " - " ++ "Crypto Deposit" :=
  every_record_has_common_attributes "holder" depositRow
    "2022-01-04 09:00:00" "Deposit" "Crypto Deposit" "TX4" _ []
    rfl rfl rfl rfl rfl

/-- Every successful `loadLoop` run returns the already-accumulated
records followed by the records of the remaining rows, one per
non-skipped row, in row order. -/
theorem loadLoop_ok_records (ah : String) (rows : List (List String)) :
    ∀ (result : List AbstractTransaction) (diags : List Diagnostic)
      (ts : List AbstractTransaction) (ds : List Diagnostic),
      loadLoop ah rows result diags = .ok (ts, ds) →
      ts = result ++ rows.filterMap (rowRecord ah) := by
  induction rows with
  | nil =>
    intro result diags ts ds h
    simp [loadLoop] at h
    simp [h.1]
  | cons row rest ih =>
    intro result diags ts ds h
    rw [loadLoop] at h
    rcases hp : processRow ah row with e | ⟨r, ds0⟩
    · rw [hp] at h
      cases h
    · rw [hp] at h
      rcases r with _ | t
      · have hrec := ih result (diags ++ ds0) ts ds h
        simp [List.filterMap_cons, rowRecord, hp, hrec]
      · have hrec := ih (result ++ [t]) (diags ++ ds0) ts ds h
        simp [List.filterMap_cons, rowRecord, hp, hrec]

/-- C8: when `load` succeeds, the returned sequence is exactly the
per-row records of the data rows in input order — each data row
contributes at most one record and skipped rows are simply absent. -/
theorem load_returns_row_records_in_order
    (ah : String) (nf : Option String) (header : List String)
    (dataRows : List (List String)) (ts : List AbstractTransaction)
    (ds : List Diagnostic)
    (h : load ah nf (header :: dataRows) = .ok (ts, ds)) :
    ts = dataRows.filterMap (rowRecord ah) := by
  have hh : loadLoop ah dataRows [] [] = .ok (ts, ds) := h
  simpa using loadLoop_ok_records ah dataRows [] [] ts ds hh

/-- Witness for C8, at a three-row file (staking reward, skipped USD
deposit, sell). -/
theorem load_returns_row_records_in_order_witness :
    [AbstractTransaction.inT {
      plugin := "Binance.us"
      unique_id := "TX1"
      raw_data := "U1,2022-01-01 10:00:00,Earn,Staking Rewards,,TX1,ADA,5.0,4.50,,,,,,,,,,,,"
      timestamp := "2022-01-01 10:00:00 -00:00"
      notes := "Earn - Staking Rewards"
      asset := "ADA"
      exchange := "Binance.us"
      holder := "holder"
      transaction_type := "interest"
      spot_price := "4.50"
      crypto_in := "5.0"
      fiat_fee := some "0" },
     AbstractTransaction.inT {
      plugin := "Binance.us"
      unique_id := "TX3"
      raw_data := "U1,2022-01-03 09:00:00,Trade,Sell,OID1,TX3,USD,100.0,100.0,BTC,0.5,482.0"
      timestamp := "2022-01-03 09:00:00 -00:00"
      notes := "Trade - Sell"
      exchange := "Binance.us"
      holder := "holder"
      transaction_type := "buy"
      asset := "BTC"
      crypto_in := "0.5"
      spot_price := "482.0"
      crypto_fee := some "482.0" }] =
      [stakingRow, usdDepositRow, sellRow].filterMap (rowRecord "holder") :=
  load_returns_row_records_in_order "holder" none headerRow
    [stakingRow, usdDepositRow, sellRow] _ _ rfl

/-- A successful row classification implies the row had at least as many
fields as its matched rule reads. -/
theorem processRow_ok_length (ah : String) (row : List String)
    (res : Option AbstractTransaction × List Diagnostic)
    (hok : processRow ah row = .ok res) :
    requiredFieldCount (rowType row) ≤ row.length := by
  rcases hq5 : row[5]? with _ | q5
  · simp [processRow, hq5, Bind.bind, Except.bind] at hok
  rcases hq3 : row[3]? with _ | q3
  · simp [processRow, hq5, hq3, Bind.bind, Except.bind] at hok
  rcases hq2 : row[2]? with _ | q2
  · simp [processRow, hq5, hq3, hq2, Bind.bind, Except.bind] at hok
  rcases hq6 : row[6]? with _ | q6
  · simp [processRow, hq5, hq3, hq2, hq6, Bind.bind, Except.bind] at hok
  rcases hq1 : row[1]? with _ | q1
  · simp [processRow, hq5, hq3, hq2, hq6, hq1, Bind.bind, Except.bind] at hok
  have h6len : 6 < row.length := (List.getElem?_eq_some.mp hq6).1
  have hrt : rowType row = q3.strip := by
    simp [rowType, hq3]
  rw [hrt]
  by_cases hc1 : q3.strip = "Referral Commission" ∨ q3.strip = "Staking Rewards"
  · rcases hq8 : row[8]? with _ | q8
    · simp [processRow, hq5, hq3, hq2, hq6, hq1, hq8, hc1,
        Bind.bind, Except.bind] at hok
    have h8len : 8 < row.length := (List.getElem?_eq_some.mp hq8).1
    simp [requiredFieldCount, hc1]
    omega
  · by_cases hc2 : q3.strip = "Crypto Deposit"
    · rcases hq7 : row[7]? with _ | q7
      · simp [processRow, hq5, hq3, hq2, hq6, hq1, hq7, hc1, hc2,
          Bind.bind, Except.bind] at hok
      rcases hq8 : row[8]? with _ | q8
      · simp [processRow, hq5, hq3, hq2, hq6, hq1, hq7, hq8, hc1, hc2,
          Bind.bind, Except.bind] at hok
      have h8len : 8 < row.length := (List.getElem?_eq_some.mp hq8).1
      simp [requiredFieldCount, hc1, hc2]
      omega
    · by_cases hc3 : q3.strip = "Crypto Withdrawal"
      · rcases hq7 : row[7]? with _ | q7
        · simp [processRow, hq5, hq3, hq2, hq6, hq1, hq7, hc1, hc2, hc3,
            Bind.bind, Except.bind] at hok
        rcases hq8 : row[8]? with _ | q8
        · simp [processRow, hq5, hq3, hq2, hq6, hq1, hq7, hq8, hc1, hc2, hc3,
            Bind.bind, Except.bind] at hok
        have h8len : 8 < row.length := (List.getElem?_eq_some.mp hq8).1
        simp [requiredFieldCount, hc1, hc2, hc3]
        omega
      · by_cases hc4 : q3.strip = "Buy" ∨ q3.strip = "Sell"
        · rcases hq9 : row[9]? with _ | q9
          · simp [processRow, hq5, hq3, hq2, hq6, hq1, hq9, hc1, hc2, hc3, hc4,
              Bind.bind, Except.bind] at hok
          rcases hq10 : row[10]? with _ | q10
          · simp [processRow, hq5, hq3, hq2, hq6, hq1, hq9, hq10, hc1, hc2,
              hc3, hc4, Bind.bind, Except.bind] at hok
          rcases hq11 : row[11]? with _ | q11
          · simp [processRow, hq5, hq3, hq2, hq6, hq1, hq9, hq10, hq11, hc1,
              hc2, hc3, hc4, Bind.bind, Except.bind] at hok
          have h11len : 11 < row.length := (List.getElem?_eq_some.mp hq11).1
          simp [requiredFieldCount, hc1, hc2, hc3, hc4]
          omega
        · have hns : ¬ q3.strip = "Sell" := fun h => hc4 (Or.inr h)
          have hnb : ¬ q3.strip = "Buy" := fun h => hc4 (Or.inl h)
          simp [requiredFieldCount, hc1, hc2, hc3, hnb, hns]
          omega

/-- If some row of the remaining input cannot be classified successfully,
the whole loop fails; no partial result is returned. -/
theorem loadLoop_bad_row_not_ok (ah : String) (row : List String)
    (hbad : ∀ res, processRow ah row ≠ .ok res) :
    ∀ (rows : List (List String)), row ∈ rows →
      ∀ result diags out, loadLoop ah rows result diags ≠ .ok out := by
  intro rows
  induction rows with
  | nil =>
    intro hmem
    cases hmem
  | cons r rest ih =>
    intro hmem result diags out h
    rw [loadLoop] at h
    rcases hp : processRow ah r with e | ⟨ropt, ds0⟩
    · rw [hp] at h
      cases h
    · rcases List.mem_cons.mp hmem with rfl | hmem2
      · exact hbad _ hp
      · rw [hp] at h
        rcases ropt with _ | t
        · exact ih hmem2 _ _ _ h
        · exact ih hmem2 _ _ _ h

/-- C9: a data row with fewer positional fields than its matched rule
reads makes the whole `load` fail: no result sequence is returned to the
caller, and any records classified from earlier rows are discarded with
it. -/
theorem malformed_row_aborts_load
    (ah : String) (nf : Option String) (header row : List String)
    (dataRows : List (List String))
    (hmem : row ∈ dataRows)
    (hshort : row.length < requiredFieldCount (rowType row)) :
    ∀ out, load ah nf (header :: dataRows) ≠ .ok out := by
  intro out h
  have hbad : ∀ res, processRow ah row ≠ .ok res := fun res hok =>
    absurd (processRow_ok_length ah row res hok) (by omega)
  exact loadLoop_bad_row_not_ok ah row hbad dataRows hmem [] [] out h

/-- Witness for C9: a file whose second data row is a Buy row with only
10 fields aborts, although its first data row is well formed. -/
theorem malformed_row_aborts_load_witness :
    shortBuyRow ∈ [stakingRow, shortBuyRow] ∧
    shortBuyRow.length < requiredFieldCount (rowType shortBuyRow) ∧
    ∀ out, load "holder" none [headerRow, stakingRow, shortBuyRow] ≠ .ok out :=
  ⟨by decide, by decide,
    malformed_row_aborts_load "holder" none headerRow shortBuyRow
      [stakingRow, shortBuyRow] (by decide) (by decide)⟩

/-- The common field extraction needs at least 7 fields whatever the
rule, so `requiredFieldCount` is never below 7. -/
theorem seven_le_requiredFieldCount (t : String) :
    7 ≤ requiredFieldCount t := by
  unfold requiredFieldCount
  split
  · omega
  split
  · omega
  split
  · omega
  split <;> omega

/-- C10: the fields at indices 1, 2, 3, 5 and 6 are read before
classification, so any data row with fewer than 7 fields aborts the
whole load, even when its transaction type would have classified it as a
zero-record skip. -/
theorem short_row_aborts_load_before_classification
    (ah : String) (nf : Option String) (header row : List String)
    (dataRows : List (List String))
    (hmem : row ∈ dataRows)
    (hshort : row.length < 7) :
    ∀ out, load ah nf (header :: dataRows) ≠ .ok out := by
  intro out h
  have hreq := seven_le_requiredFieldCount (rowType row)
  have hbad : ∀ res, processRow ah row ≠ .ok res := fun res hok =>
    absurd (processRow_ok_length ah row res hok) (by omega)
  exact loadLoop_bad_row_not_ok ah row hbad dataRows hmem [] [] out h

/-- Witness for C10: a 6-field row whose type field reads "USD Deposit"
still aborts the load. -/
theorem short_row_aborts_load_before_classification_witness :
    shortUsdRow ∈ [shortUsdRow] ∧
    shortUsdRow.length < 7 ∧
    rowType shortUsdRow = "USD Deposit" ∧
    ∀ out, load "holder" none [headerRow, shortUsdRow] ≠ .ok out :=
  ⟨by decide, by decide, by decide,
    short_row_aborts_load_before_classification "holder" none headerRow
      shortUsdRow [shortUsdRow] (by decide) (by decide)⟩

end Binance
